import Mathlib

/-!
Shallow embedding of `src/streamlit_app.py` (Stockchk): a Streamlit dashboard
that fetches an adjusted-close price series, computes two simple moving
averages, truncates to the last 252 points and renders a plotly chart.

Python `date` values are modelled by `PyDate`; pandas Series are modelled as
lists of (index, value) pairs with `Option ℚ` values for series that can hold
NaN (the rolling means); the plotly figure is modelled by `Figure`; Streamlit
UI calls (`st.error`, `st.warning`, `st.text`, `st.plotly_chart`) and the
network call made by `yf.download` are recorded as an ordered list of
`Effect`s. `@st.cache_data` is modelled by an explicit association-list cache
threaded through `get_stock_data`. `yf.download` itself is an external
collaborator and is abstracted as an `Oracle` argument that either returns a
data frame (possibly empty) or raises.
-/

namespace Stockchk

/-- A Python `datetime.date`: a (year, month, day) triple.  Python's `date`
constructor validates the triple; validity is tracked separately by
`isValidDate`. -/
structure PyDate where
  year : ℕ
  month : ℕ
  day : ℕ
  deriving DecidableEq, Repr

/-- Gregorian leap-year rule, as implemented by Python's `calendar`/`datetime`. -/
def isLeapYear (y : ℕ) : Bool :=
  (y % 4 == 0 && y % 100 != 0) || (y % 400 == 0)

/-- Number of days in a month, as used by Python's `datetime` validation. -/
def daysInMonth (y m : ℕ) : ℕ :=
  if m = 2 then (if isLeapYear y then 29 else 28)
  else if m = 4 ∨ m = 6 ∨ m = 9 ∨ m = 11 then 30
  else 31

/-- Whether a (year, month, day) triple is a date `datetime.date` accepts. -/
def isValidDate (d : PyDate) : Bool :=
  decide (1 ≤ d.month) && decide (d.month ≤ 12) &&
  decide (1 ≤ d.day) && decide (d.day ≤ daysInMonth d.year d.month)

/-- Python's `date.replace(year=y)`: rebuilds the date with the new year and
re-validates; raises `ValueError` (modelled as `none`) when the resulting
triple is not a real date (e.g. Feb 29 of a non-leap year). -/
def replaceYear (d : PyDate) (y : ℕ) : Option PyDate :=
  if isValidDate ⟨y, d.month, d.day⟩ then some ⟨y, d.month, d.day⟩ else none

/-- Default of the "Start Date" picker:
`datetime.now().date().replace(year=datetime.now().year - 3)`
(src/streamlit_app.py line 110). `none` models the `ValueError` escaping. -/
def defaultStartDate (today : PyDate) : Option PyDate :=
  replaceYear today (today.year - 3)

/-- Default of the "End Date" picker: `datetime.now().date()`
(src/streamlit_app.py line 111). -/
def defaultEndDate (today : PyDate) : PyDate := today

/-- Python `date` comparison `a < b` (lexicographic on (year, month, day)). -/
def PyDate.lt (a b : PyDate) : Bool :=
  a.year < b.year ||
    (a.year == b.year &&
      (a.month < b.month || (a.month == b.month && a.day < b.day)))

/-- Python `date` comparison `a >= b`. -/
def PyDate.ge (a b : PyDate) : Bool := !(PyDate.lt a b)

/-- Positions of the pandas date index are abstracted as naturals (the source
never inspects individual dates of the series, only keeps them aligned). -/
abbrev TradingDay := ℕ

/-- A pandas Series of adjusted-close prices: (date, price) pairs, every value
present.  Prices are modelled in ℚ. -/
abbrev PriceSeries := List (TradingDay × ℚ)

/-- A pandas Series that may hold NaN entries (the rolling means): `none`
models NaN. -/
abbrev MASeries := List (TradingDay × Option ℚ)

/-- One row of the data frame returned by `yf.download`: OHLC, adjusted close
and volume columns. -/
structure OhlcRow where
  openPrice : ℚ
  highPrice : ℚ
  lowPrice : ℚ
  closePrice : ℚ
  adjClose : ℚ
  volume : ℕ
  deriving DecidableEq, Repr

/-- Result of one `yf.download` call: a data frame (possibly empty), or a
raised network/parsing exception with its message. -/
inductive FetchResult where
  | ok (frame : List (TradingDay × OhlcRow))
  | exn (msg : String)
  deriving DecidableEq, Repr

/-- The external market-data source: what `yf.download(symbol, start, end)`
would produce for each argument triple. -/
abbrev Oracle := String → PyDate → PyDate → FetchResult

/-- `series.rolling(window=w).mean()` of pandas: same index as the input; at
position `i` the value is the arithmetic mean of the `w` entries ending at
`i` when `i + 1 ≥ w`, and NaN (`none`) otherwise. -/
def rollingMean (w : ℕ) (s : PriceSeries) : MASeries :=
  s.enum.map (fun p =>
    (p.2.1,
     if w ≤ p.1 + 1 then
       some ((((s.map Prod.snd).drop (p.1 + 1 - w)).take w).sum / (w : ℚ))
     else none))

/-- `calculate_sma` (src/streamlit_app.py lines 49-52).  The Python defaults
`short_window=20, long_window=200` are passed explicitly at the call site. -/
def calculate_sma (stock_data : PriceSeries) (short_window long_window : ℕ) :
    MASeries × MASeries :=
  (rollingMean short_window stock_data, rollingMean long_window stock_data)

/-- One plotly `go.Scatter` line trace. -/
structure Trace where
  x : List TradingDay
  y : List (Option ℚ)
  mode : String
  name : String
  color : String
  deriving DecidableEq, Repr

/-- One button of the plotly x-axis range selector. -/
structure RSButton where
  count : Option ℕ
  label : Option String
  step : String
  stepmode : Option String
  deriving DecidableEq, Repr

/-- The chart specification assembled by `create_stock_graph`. -/
structure Figure where
  traces : List Trace
  rangeButtons : List RSButton
  xaxisTitle : String
  yaxisTitle : String
  titleText : String
  height : ℕ
  rangesliderVisible : Bool
  deriving DecidableEq, Repr

/-- The five range-selector buttons configured in `create_stock_graph`
(src/streamlit_app.py lines 66-72). -/
def rangeSelectorButtons : List RSButton :=
  [⟨some 1, some "1m", "month", some "backward"⟩,
   ⟨some 6, some "6m", "month", some "backward"⟩,
   ⟨some 1, some "YTD", "year", some "todate"⟩,
   ⟨some 1, some "1y", "year", some "backward"⟩,
   ⟨none, none, "all", none⟩]

/-- Observable actions of one interaction: Streamlit UI output and the
network call performed by `yf.download`, in program order. -/
inductive Effect where
  | errorMsg (s : String)
  | warningMsg (s : String)
  | text (s : String)
  | fetchCall (symbol : String) (startDate endDate : PyDate)
  | chart (fig : Figure)
  deriving DecidableEq, Repr

/-- `create_stock_graph` (src/streamlit_app.py lines 55-95): `none` plus an
`st.error` when the data is `None` or empty, otherwise the three-trace figure
with the range selector, axis titles "Date"/"Price" and height 600. -/
def create_stock_graph (stock_data : Option PriceSeries)
    (short_sma long_sma : MASeries) (title : String) :
    Option Figure × List Effect :=
  match stock_data with
  | none => (none, [Effect.errorMsg "No data available for plotting."])
  | some sd =>
    if sd.isEmpty then
      (none, [Effect.errorMsg "No data available for plotting."])
    else
      (some
        { traces :=
            [{ x := sd.map Prod.fst, y := sd.map (fun p => some p.2),
               mode := "lines", name := title, color := "#007acc" },
             { x := short_sma.map Prod.fst, y := short_sma.map Prod.snd,
               mode := "lines", name := "20-day SMA", color := "#20fc03" },
             { x := long_sma.map Prod.fst, y := long_sma.map Prod.snd,
               mode := "lines", name := "200-day SMA", color := "#fc0303" }],
          rangeButtons := rangeSelectorButtons,
          xaxisTitle := "Date",
          yaxisTitle := "Price",
          titleText := title,
          height := 600,
          rangesliderVisible := false },
       [])

/-- Key of the `@st.cache_data` memoization: the call arguments. -/
abbrev CacheKey := String × PyDate × PyDate

/-- The in-process `@st.cache_data` store: association list from call
arguments to the cached return value. -/
abbrev Cache := List (CacheKey × Option PriceSeries)

/-- Lookup in the memoization store. -/
def cacheLookup (c : Cache) (k : CacheKey) : Option (Option PriceSeries) :=
  match c with
  | [] => none
  | (k2, v) :: rest => if k2 = k then some v else cacheLookup rest k

/-- Selecting the `stock_data['Adj Close']` column of a `yf.download` frame. -/
def adjClose_column (frame : List (TradingDay × OhlcRow)) : PriceSeries :=
  frame.map (fun p => (p.1, p.2.adjClose))

/-- Body of `get_stock_data` (src/streamlit_app.py lines 36-46), without the
cache: calls `yf.download`; on a non-empty frame returns its `Adj Close`
column, on an empty frame warns and returns `None`, on an exception shows an
error and returns `None`. -/
def get_stock_data_run (oracle : Oracle) (stock_symbol : String)
    (start_date end_date : PyDate) : Option PriceSeries × List Effect :=
  match oracle stock_symbol start_date end_date with
  | FetchResult.ok frame =>
    if frame.isEmpty then
      (none, [Effect.fetchCall stock_symbol start_date end_date,
              Effect.warningMsg ("No data found for " ++ stock_symbol ++ ".")])
    else
      (some (adjClose_column frame),
       [Effect.fetchCall stock_symbol start_date end_date])
  | FetchResult.exn m =>
    (none, [Effect.fetchCall stock_symbol start_date end_date,
            Effect.errorMsg ("Error fetching data: " ++ m)])

/-- Result of one (cached) `get_stock_data` call: the returned value, the
cache afterwards, and the effects of this call. -/
structure FetchOutcome where
  value : Option PriceSeries
  cache : Cache
  effects : List Effect
  deriving Repr

/-- `get_stock_data` with the `@st.cache_data` decorator (src/streamlit_app.py
lines 35-46): on a hit the stored value is returned with no network call; on
a miss the body runs and its return value is stored. -/
def get_stock_data (oracle : Oracle) (cache : Cache) (stock_symbol : String)
    (start_date end_date : PyDate) : FetchOutcome :=
  let k : CacheKey := (stock_symbol, start_date, end_date)
  match cacheLookup cache k with
  | some v => ⟨v, cache, []⟩
  | none =>
    let r := get_stock_data_run oracle stock_symbol start_date end_date
    ⟨r.1, (k, r.1) :: cache, r.2⟩

/-- `Series.tail(252)` of pandas: the last 252 rows (all rows when fewer). -/
def tail252 {α : Type} (l : List α) : List α := l.drop (l.length - 252)

/-- `main` (src/streamlit_app.py lines 98-135), after the UI inputs (symbol,
start date, end date) have been read: validates the range, fetches, computes
the SMAs, truncates the three series with `.tail(252)` and plots. Returns the
effect trace of the interaction and the cache afterwards. -/
def main (oracle : Oracle) (cache : Cache) (stock_symbol : String)
    (start_date end_date : PyDate) : List Effect × Cache :=
  if PyDate.ge start_date end_date then
    ([Effect.errorMsg "Start date must be before end date."], cache)
  else
    let r := get_stock_data oracle cache stock_symbol start_date end_date
    let pre := Effect.text "Last Update Date" :: r.effects
    match r.value with
    | none => (pre, r.cache)
    | some stock_data =>
      let smas := calculate_sma stock_data 20 200
      let stock_data_last_year := tail252 stock_data
      let short_sma_last_year := tail252 smas.1
      let long_sma_last_year := tail252 smas.2
      let g := create_stock_graph (some stock_data_last_year)
        short_sma_last_year long_sma_last_year stock_symbol
      match g.1 with
      | none => (pre ++ g.2, r.cache)
      | some fig => (pre ++ g.2 ++ [Effect.chart fig], r.cache)

/-- The ten symbols of the dropdown (src/streamlit_app.py line 105). -/
def default_symbols : List String :=
  ["AAPL", "GOOG", "MSFT", "AMZN", "TSLA", "NVDA", "META", "CRM", "JPM", "XOM"]

/-- The synthetic 30-point linear price series `[1, 2, ..., 30]` of the spec's
windowing test. -/
def linear30 : PriceSeries := (List.range 30).map (fun k => (k, (k : ℚ) + 1))

/-- A tiny sample price series used to instantiate theorems with hypotheses. -/
def demo3 : PriceSeries := [(0, 10), (1, 11), (2, 12)]

/-- An oracle whose frame is always empty (the upstream source has no data). -/
def noDataOracle : Oracle := fun _ _ _ => FetchResult.ok []

/-- An oracle that always raises (the upstream source is unreachable). -/
def exnOracle : Oracle := fun _ _ _ => FetchResult.exn "boom"

/-! ## Helper lemmas -/

theorem rollingMean_length (w : ℕ) (s : PriceSeries) :
    (rollingMean w s).length = s.length := by
  simp [rollingMean]

theorem rollingMean_get (w : ℕ) (s : PriceSeries) (i : ℕ) (hi : i < s.length)
    (hr : i < (rollingMean w s).length) :
    (rollingMean w s).get ⟨i, hr⟩ =
      ((s.get ⟨i, hi⟩).1,
       if w ≤ i + 1 then
         some ((((s.map Prod.snd).drop (i + 1 - w)).take w).sum / (w : ℚ))
       else none) := by
  simp [rollingMean, List.getElem_enum]

theorem rollingMean_dates (w : ℕ) (s : PriceSeries) :
    (rollingMean w s).map Prod.fst = s.map Prod.fst := by
  show (s.enum.map _).map Prod.fst = s.map Prod.fst
  rw [List.map_map]
  have : (Prod.fst ∘ fun p : ℕ × (TradingDay × ℚ) =>
      ((p.2.1 : TradingDay),
        if w ≤ p.1 + 1 then
          some ((((s.map Prod.snd).drop (p.1 + 1 - w)).take w).sum / (w : ℚ))
        else none)) = Prod.fst ∘ Prod.snd := rfl
  rw [this, ← List.map_map, List.enum_map_snd]

theorem tail252_length {α : Type} (l : List α) :
    (tail252 l).length = min l.length 252 := by
  simp [tail252]
  omega

theorem tail252_ne_nil {α : Type} (l : List α) (h : l ≠ []) : tail252 l ≠ [] := by
  have h1 : 0 < l.length := List.length_pos.mpr h
  have h2 : 0 < (tail252 l).length := by rw [tail252_length]; omega
  exact List.length_pos.mp h2

theorem tail252_of_short {α : Type} (l : List α) (h : l.length ≤ 252) :
    tail252 l = l := by
  have : l.length - 252 = 0 := by omega
  simp [tail252, this]

/-! ## Claim theorems -/

/-- Claim C1: for every price series and positive window `w`, the rolling
mean at each index `i ≥ w - 1` is the arithmetic mean of the input entries at
indices `i - w + 1 .. i`; entries at indices below `w - 1` are absent (NaN);
in particular, for the series `[1, ..., 30]` with window 5, the value at
0-based index 29 is 28. -/
theorem sma_is_rolling_arithmetic_mean (s : PriceSeries) (w : ℕ) (hw : 0 < w) :
    (∀ i : ℕ, (hi : i < s.length) → (hr : i < (rollingMean w s).length) →
        w - 1 ≤ i →
        (rollingMean w s).get ⟨i, hr⟩ =
          ((s.get ⟨i, hi⟩).1,
           some ((((s.map Prod.snd).take (i + 1)).drop (i + 1 - w)).sum / (w : ℚ))))
    ∧ (∀ i : ℕ, (hi : i < s.length) → (hr : i < (rollingMean w s).length) →
        i < w - 1 →
        ((rollingMean w s).get ⟨i, hr⟩).2 = none)
    ∧ (rollingMean 5 linear30).get? 29 = some (29, some 28) := by
  refine ⟨?_, ?_, ?_⟩
  · intro i hi hr hwi
    rw [rollingMean_get w s i hi hr]
    have hcond : w ≤ i + 1 := by omega
    rw [if_pos hcond]
    have hslice : ((s.map Prod.snd).take (i + 1)).drop (i + 1 - w) =
        ((s.map Prod.snd).drop (i + 1 - w)).take w := by
      rw [List.drop_take]
      congr 1
      omega
    rw [hslice]
  · intro i hi hr hwi
    rw [rollingMean_get w s i hi hr]
    have hcond : ¬ w ≤ i + 1 := by omega
    rw [if_neg hcond]
  · norm_num [rollingMean, linear30, List.range_succ, List.enum, List.enumFrom,
      List.get?]

/-- Witness for C1: the windowing test of the spec, `[1, ..., 30]` with
window 5 at index 29, evaluated through the theorem. -/
theorem sma_is_rolling_arithmetic_mean_witness :
    (rollingMean 5 linear30).get? 29 = some (29, some 28) :=
  (sma_is_rolling_arithmetic_mean linear30 5 (by decide)).2.2

/-- Claim C2: for every input price series and positive windows, both series
returned by `calculate_sma` have the same length and the same date positions
as the input, and an entry is defined exactly when its index is at least
`window - 1`. -/
theorem calculate_sma_aligned (s : PriceSeries) (sw lw : ℕ)
    (hsw : 0 < sw) (hlw : 0 < lw) :
    ((calculate_sma s sw lw).1.length = s.length) ∧
    ((calculate_sma s sw lw).2.length = s.length) ∧
    ((calculate_sma s sw lw).1.map Prod.fst = s.map Prod.fst) ∧
    ((calculate_sma s sw lw).2.map Prod.fst = s.map Prod.fst) ∧
    (∀ i : ℕ, (h1 : i < (calculate_sma s sw lw).1.length) →
        (((calculate_sma s sw lw).1.get ⟨i, h1⟩).2 ≠ none ↔ sw - 1 ≤ i)) ∧
    (∀ i : ℕ, (h2 : i < (calculate_sma s sw lw).2.length) →
        (((calculate_sma s sw lw).2.get ⟨i, h2⟩).2 ≠ none ↔ lw - 1 ≤ i)) := by
  refine ⟨rollingMean_length sw s, rollingMean_length lw s,
    rollingMean_dates sw s, rollingMean_dates lw s, ?_, ?_⟩
  · intro i h1
    have hi : i < s.length := by rw [← rollingMean_length sw s]; exact h1
    have hr : i < (rollingMean sw s).length := h1
    show ((rollingMean sw s).get ⟨i, hr⟩).2 ≠ none ↔ sw - 1 ≤ i
    rw [rollingMean_get sw s i hi hr]
    by_cases hcond : sw ≤ i + 1
    · rw [if_pos hcond]
      constructor
      · intro _; omega
      · intro _; simp
    · rw [if_neg hcond]
      constructor
      · intro hne; exact absurd rfl hne
      · intro hle; omega
  · intro i h2
    have hi : i < s.length := by rw [← rollingMean_length lw s]; exact h2
    have hr : i < (rollingMean lw s).length := h2
    show ((rollingMean lw s).get ⟨i, hr⟩).2 ≠ none ↔ lw - 1 ≤ i
    rw [rollingMean_get lw s i hi hr]
    by_cases hcond : lw ≤ i + 1
    · rw [if_pos hcond]
      constructor
      · intro _; omega
      · intro _; simp
    · rw [if_neg hcond]
      constructor
      · intro hne; exact absurd rfl hne
      · intro hle; omega

/-- Witness for C2: the alignment facts at a concrete 3-point series with
windows 2 and 3. -/
theorem calculate_sma_aligned_witness :
    0 < 2 ∧ (calculate_sma demo3 2 3).1.length = demo3.length :=
  ⟨by decide, (calculate_sma_aligned demo3 2 3 (by decide) (by decide)).1⟩

/-- Claim C7: two consecutive `get_stock_data` calls with identical arguments
return the same value; the second call is served from the memoization cache,
performs no effect (in particular no network fetch) and leaves the cache
unchanged. -/
theorem get_stock_data_memoized (oracle : Oracle) (cache : Cache)
    (sym : String) (s e : PyDate) :
    ((get_stock_data oracle (get_stock_data oracle cache sym s e).cache
        sym s e).value = (get_stock_data oracle cache sym s e).value) ∧
    ((get_stock_data oracle (get_stock_data oracle cache sym s e).cache
        sym s e).effects = []) ∧
    ((get_stock_data oracle (get_stock_data oracle cache sym s e).cache
        sym s e).cache = (get_stock_data oracle cache sym s e).cache) := by
  unfold get_stock_data
  cases h : cacheLookup cache (sym, s, e) with
  | some v => simp [h]
  | none => simp [h, cacheLookup]

/-- Claim C8: `create_stock_graph` on a `None` or empty price series returns
no figure and signals "No data available for plotting.". -/
theorem empty_series_no_chart (sd : Option PriceSeries)
    (short_sma long_sma : MASeries) (title : String)
    (h : sd = none ∨ sd = some []) :
    create_stock_graph sd short_sma long_sma title =
      (none, [Effect.errorMsg "No data available for plotting."]) := by
  rcases h with h | h <;> subst h <;> simp [create_stock_graph]

/-- Witness for C8: the empty-input case evaluated at `None`. -/
theorem empty_series_no_chart_witness :
    create_stock_graph none [] [] "AAPL" =
      (none, [Effect.errorMsg "No data available for plotting."]) :=
  empty_series_no_chart none [] [] "AAPL" (Or.inl rfl)

/-- Claim C9 (leap-day bug): on every valid current date other than a
February 29 the date-picker defaults are computed as the claim states (start
is today with the year decreased by 3, end is today); but 2024-02-29 is a
valid current date on which the start-default computation fails (Python
raises `ValueError`, modelled by `none`), because 2021-02-29 does not exist. -/
theorem date_defaults_minus_three_years (d : PyDate) (hv : isValidDate d = true)
    (hnl : ¬(d.month = 2 ∧ d.day = 29)) :
    (defaultStartDate d = some ⟨d.year - 3, d.month, d.day⟩ ∧
     defaultEndDate d = d) ∧
    (isValidDate ⟨2024, 2, 29⟩ = true ∧ defaultStartDate ⟨2024, 2, 29⟩ = none) := by
  refine ⟨⟨?_, rfl⟩, by decide, by decide⟩
  simp only [isValidDate, Bool.and_eq_true, decide_eq_true_eq] at hv
  obtain ⟨⟨⟨hm1, hm2⟩, hd1⟩, hd2⟩ := hv
  have hday : d.day ≤ daysInMonth (d.year - 3) d.month := by
    by_cases hm : d.month = 2
    · have hd29 : d.day ≠ 29 := fun hc => hnl ⟨hm, hc⟩
      have hub : daysInMonth d.year d.month ≤ 29 := by
        rw [hm]
        unfold daysInMonth
        cases isLeapYear d.year <;> simp
      have hlb : 28 ≤ daysInMonth (d.year - 3) d.month := by
        rw [hm]
        unfold daysInMonth
        cases isLeapYear (d.year - 3) <;> simp
      omega
    · have heq : daysInMonth (d.year - 3) d.month = daysInMonth d.year d.month := by
        unfold daysInMonth
        rw [if_neg hm, if_neg hm]
      omega
  have hvalid : isValidDate ⟨d.year - 3, d.month, d.day⟩ = true := by
    simp only [isValidDate, Bool.and_eq_true, decide_eq_true_eq]
    exact ⟨⟨⟨hm1, hm2⟩, hd1⟩, hday⟩
  unfold defaultStartDate replaceYear
  rw [hvalid]
  simp

/-- Witness for C9's theorem: the defaults at 2023-03-01 (a non-leap-day
date) and the failure at 2024-02-29, through the theorem. -/
theorem date_defaults_minus_three_years_witness :
    defaultStartDate ⟨2023, 3, 1⟩ = some ⟨2020, 3, 1⟩ ∧
    defaultStartDate ⟨2024, 2, 29⟩ = none :=
  ⟨(date_defaults_minus_three_years ⟨2023, 3, 1⟩ (by decide) (by decide)).1.1,
   (date_defaults_minus_three_years ⟨2023, 3, 1⟩ (by decide) (by decide)).2.2⟩

/-- Claim C3: when the start date is not before the end date, `main` shows
only the InvalidDateRange error and halts: the Data Provider is never called
and no later stage runs (no chart). -/
theorem invalid_range_halts_before_fetch (oracle : Oracle) (cache : Cache)
    (sym : String) (s e : PyDate) (h : PyDate.ge s e = true) :
    (main oracle cache sym s e =
      ([Effect.errorMsg "Start date must be before end date."], cache)) ∧
    (∀ (sym2 : String) (a b : PyDate),
      Effect.fetchCall sym2 a b ∉ (main oracle cache sym s e).1) ∧
    (∀ fig : Figure, Effect.chart fig ∉ (main oracle cache sym s e).1) := by
  have hm : main oracle cache sym s e =
      ([Effect.errorMsg "Start date must be before end date."], cache) := by
    simp [main, h]
  refine ⟨hm, ?_, ?_⟩ <;> intros <;> simp [hm]

/-- Witness for C3: equal start and end dates halt with the error and the
fetch is never performed. -/
theorem invalid_range_halts_before_fetch_witness :
    PyDate.ge ⟨2024, 1, 1⟩ ⟨2024, 1, 1⟩ = true ∧
    main noDataOracle [] "AAPL" ⟨2024, 1, 1⟩ ⟨2024, 1, 1⟩ =
      ([Effect.errorMsg "Start date must be before end date."], []) :=
  ⟨by decide,
   (invalid_range_halts_before_fetch noDataOracle [] "AAPL"
     ⟨2024, 1, 1⟩ ⟨2024, 1, 1⟩ (by decide)).1⟩

/-- Claim C4: when the fetch fails (the upstream frame is empty, or the
download raises), `get_stock_data` returns `None` instead of throwing, and
`main` renders no chart and never reaches the Chart Builder (whose error
message therefore never appears either). -/
theorem fetch_failure_skips_pipeline (oracle : Oracle) (sym : String)
    (s e : PyDate) (m : String) (hrange : PyDate.ge s e = false)
    (hfail : oracle sym s e = FetchResult.ok [] ∨
             oracle sym s e = FetchResult.exn m) :
    ((get_stock_data oracle [] sym s e).value = none) ∧
    (∀ fig : Figure, Effect.chart fig ∉ (main oracle [] sym s e).1) ∧
    ((main oracle [] sym s e).1 =
       [Effect.text "Last Update Date", Effect.fetchCall sym s e,
        Effect.warningMsg ("No data found for " ++ sym ++ ".")] ∨
     (main oracle [] sym s e).1 =
       [Effect.text "Last Update Date", Effect.fetchCall sym s e,
        Effect.errorMsg ("Error fetching data: " ++ m)]) := by
  rcases hfail with hfail | hfail
  · have hm : (main oracle [] sym s e).1 =
        [Effect.text "Last Update Date", Effect.fetchCall sym s e,
         Effect.warningMsg ("No data found for " ++ sym ++ ".")] := by
      simp [main, hrange, get_stock_data, cacheLookup, get_stock_data_run, hfail]
    refine ⟨?_, ?_, Or.inl hm⟩
    · simp [get_stock_data, cacheLookup, get_stock_data_run, hfail]
    · intro fig; simp [hm]
  · have hm : (main oracle [] sym s e).1 =
        [Effect.text "Last Update Date", Effect.fetchCall sym s e,
         Effect.errorMsg ("Error fetching data: " ++ m)] := by
      simp [main, hrange, get_stock_data, cacheLookup, get_stock_data_run, hfail]
    refine ⟨?_, ?_, Or.inr hm⟩
    · simp [get_stock_data, cacheLookup, get_stock_data_run, hfail]
    · intro fig; simp [hm]

/-- Witness for C4: an upstream source with zero rows yields a `None` value. -/
theorem fetch_failure_skips_pipeline_witness :
    PyDate.ge ⟨2021, 1, 1⟩ ⟨2024, 1, 1⟩ = false ∧
    (get_stock_data noDataOracle [] "AAPL" ⟨2021, 1, 1⟩ ⟨2024, 1, 1⟩).value = none :=
  ⟨by decide,
   (fetch_failure_skips_pipeline noDataOracle "AAPL" ⟨2021, 1, 1⟩ ⟨2024, 1, 1⟩
     "boom" (by decide) (Or.inl rfl)).1⟩

/-- Claim C10: the two fetch-failure modes (empty upstream frame, raised
exception) both make `get_stock_data` return `None`, so `main` handles them
identically — the whole remaining pipeline is skipped — and the two traces
differ only in the message shown at the point of failure (a warning for no
data, an error for the exception). -/
theorem failure_modes_indistinguishable (o1 o2 : Oracle) (sym : String)
    (s e : PyDate) (m : String) (hrange : PyDate.ge s e = false)
    (h1 : o1 sym s e = FetchResult.ok []) (h2 : o2 sym s e = FetchResult.exn m) :
    ((get_stock_data o1 [] sym s e).value = none) ∧
    ((get_stock_data o2 [] sym s e).value = none) ∧
    ((main o1 [] sym s e).1 =
      [Effect.text "Last Update Date", Effect.fetchCall sym s e,
       Effect.warningMsg ("No data found for " ++ sym ++ ".")]) ∧
    ((main o2 [] sym s e).1 =
      [Effect.text "Last Update Date", Effect.fetchCall sym s e,
       Effect.errorMsg ("Error fetching data: " ++ m)]) := by
  refine ⟨?_, ?_, ?_, ?_⟩
  · simp [get_stock_data, cacheLookup, get_stock_data_run, h1]
  · simp [get_stock_data, cacheLookup, get_stock_data_run, h2]
  · simp [main, hrange, get_stock_data, cacheLookup, get_stock_data_run, h1]
  · simp [main, hrange, get_stock_data, cacheLookup, get_stock_data_run, h2]

/-- Witness for C10: both failure oracles produce a `None` value for the same
arguments. -/
theorem failure_modes_indistinguishable_witness :
    (get_stock_data noDataOracle [] "AAPL" ⟨2021, 1, 1⟩ ⟨2024, 1, 1⟩).value = none ∧
    (get_stock_data exnOracle [] "AAPL" ⟨2021, 1, 1⟩ ⟨2024, 1, 1⟩).value = none :=
  ⟨(failure_modes_indistinguishable noDataOracle exnOracle "AAPL"
      ⟨2021, 1, 1⟩ ⟨2024, 1, 1⟩ "boom" (by decide) rfl rfl).1,
   (failure_modes_indistinguishable noDataOracle exnOracle "AAPL"
      ⟨2021, 1, 1⟩ ⟨2024, 1, 1⟩ "boom" (by decide) rfl rfl).2.1⟩

/-- Claim C5: for every non-empty price series, `create_stock_graph` returns
a figure with exactly three line traces (price, 20-day SMA, 200-day SMA, in
three pairwise distinct colors), exactly the five range-selector shortcuts
(1 month back, 6 months back, year-to-date, 1 year back, full range) and the
axis labels "Date" and "Price". -/
theorem chart_three_traces_five_buttons (sd : PriceSeries)
    (short_sma long_sma : MASeries) (title : String) (h : sd ≠ []) :
    ∃ fig : Figure,
      (create_stock_graph (some sd) short_sma long_sma title).1 = some fig ∧
      fig.traces.length = 3 ∧
      fig.traces.map Trace.mode = ["lines", "lines", "lines"] ∧
      fig.traces.map Trace.name = [title, "20-day SMA", "200-day SMA"] ∧
      fig.traces.map Trace.color = ["#007acc", "#20fc03", "#fc0303"] ∧
      ("#20fc03" ≠ "#007acc" ∧ "#fc0303" ≠ "#007acc" ∧
       ("#20fc03" : String) ≠ "#fc0303") ∧
      fig.rangeButtons =
        [⟨some 1, some "1m", "month", some "backward"⟩,
         ⟨some 6, some "6m", "month", some "backward"⟩,
         ⟨some 1, some "YTD", "year", some "todate"⟩,
         ⟨some 1, some "1y", "year", some "backward"⟩,
         ⟨none, none, "all", none⟩] ∧
      fig.rangeButtons.length = 5 ∧
      fig.xaxisTitle = "Date" ∧ fig.yaxisTitle = "Price" := by
  have hne : sd.isEmpty = false := by
    cases sd with
    | nil => exact absurd rfl h
    | cons a t => rfl
  refine ⟨⟨[⟨sd.map Prod.fst, sd.map (fun p => some p.2),
             "lines", title, "#007acc"⟩,
            ⟨short_sma.map Prod.fst, short_sma.map Prod.snd,
             "lines", "20-day SMA", "#20fc03"⟩,
            ⟨long_sma.map Prod.fst, long_sma.map Prod.snd,
             "lines", "200-day SMA", "#fc0303"⟩],
           rangeSelectorButtons, "Date", "Price", title, 600, false⟩,
    ?_, rfl, rfl, rfl, rfl, ⟨by decide, by decide, by decide⟩, rfl, rfl, rfl, rfl⟩
  simp [create_stock_graph, hne]

/-- Witness for C5: the figure shape at a concrete 3-point series. -/
theorem chart_three_traces_five_buttons_witness :
    ∃ fig : Figure,
      (create_stock_graph (some demo3) [] [] "AAPL").1 = some fig ∧
      fig.traces.length = 3 ∧
      fig.traces.map Trace.mode = ["lines", "lines", "lines"] ∧
      fig.traces.map Trace.name = ["AAPL", "20-day SMA", "200-day SMA"] ∧
      fig.traces.map Trace.color = ["#007acc", "#20fc03", "#fc0303"] ∧
      ("#20fc03" ≠ "#007acc" ∧ "#fc0303" ≠ "#007acc" ∧
       ("#20fc03" : String) ≠ "#fc0303") ∧
      fig.rangeButtons =
        [⟨some 1, some "1m", "month", some "backward"⟩,
         ⟨some 6, some "6m", "month", some "backward"⟩,
         ⟨some 1, some "YTD", "year", some "todate"⟩,
         ⟨some 1, some "1y", "year", some "backward"⟩,
         ⟨none, none, "all", none⟩] ∧
      fig.rangeButtons.length = 5 ∧
      fig.xaxisTitle = "Date" ∧ fig.yaxisTitle = "Price" :=
  chart_three_traces_five_buttons demo3 [] [] "AAPL" (by decide)

set_option maxRecDepth 4000 in
/-- Claim C6: on a successful interaction `main` computes the SMAs on the
full fetched series, then truncates price, short SMA and long SMA with
`.tail(252)` before building the chart: each rendered trace holds the last
`min(n, 252)` points of its series — exactly 252 for an `n ≥ 252`-point
series, all points when `n ≤ 252`. -/
theorem truncate_to_last_252_before_chart (oracle : Oracle) (cache : Cache)
    (sym : String) (s e : PyDate) (rows : List (TradingDay × OhlcRow))
    (hrange : PyDate.ge s e = false)
    (hmiss : cacheLookup cache (sym, s, e) = none)
    (hok : oracle sym s e = FetchResult.ok rows) (hne : rows ≠ []) :
    ∃ fig : Figure,
      (main oracle cache sym s e).1 =
        [Effect.text "Last Update Date", Effect.fetchCall sym s e,
         Effect.chart fig] ∧
      fig.traces.map Trace.x =
        [(tail252 (adjClose_column rows)).map Prod.fst,
         (tail252 (rollingMean 20 (adjClose_column rows))).map Prod.fst,
         (tail252 (rollingMean 200 (adjClose_column rows))).map Prod.fst] ∧
      fig.traces.map Trace.y =
        [(tail252 (adjClose_column rows)).map (fun p => some p.2),
         (tail252 (rollingMean 20 (adjClose_column rows))).map Prod.snd,
         (tail252 (rollingMean 200 (adjClose_column rows))).map Prod.snd] ∧
      (∀ t ∈ fig.traces, t.x.length = min rows.length 252) ∧
      (252 ≤ rows.length → ∀ t ∈ fig.traces, t.x.length = 252) ∧
      (rows.length ≤ 252 →
        fig.traces.map Trace.x =
          [(adjClose_column rows).map Prod.fst,
           (rollingMean 20 (adjClose_column rows)).map Prod.fst,
           (rollingMean 200 (adjClose_column rows)).map Prod.fst]) := by
  have hrowsne : rows.isEmpty = false := by
    cases rows with
    | nil => exact absurd rfl hne
    | cons a t => rfl
  have hpsne : adjClose_column rows ≠ [] := by
    simpa [adjClose_column] using hne
  have htailne : tail252 (adjClose_column rows) ≠ [] := tail252_ne_nil _ hpsne
  have htail : (tail252 (adjClose_column rows)).isEmpty = false := by
    cases h2 : tail252 (adjClose_column rows) with
    | nil => exact absurd h2 htailne
    | cons a t => rfl
  have hfetch : get_stock_data oracle cache sym s e =
      ⟨some (adjClose_column rows),
       ((sym, s, e), some (adjClose_column rows)) :: cache,
       [Effect.fetchCall sym s e]⟩ := by
    simp [get_stock_data, hmiss, get_stock_data_run, hok, hrowsne]
  have hlen : (adjClose_column rows).length = rows.length := by
    simp [adjClose_column]
  refine ⟨⟨[⟨(tail252 (adjClose_column rows)).map Prod.fst,
             (tail252 (adjClose_column rows)).map
               (fun p : TradingDay × ℚ => some p.2),
             "lines", sym, "#007acc"⟩,
            ⟨(tail252 (rollingMean 20 (adjClose_column rows))).map Prod.fst,
             (tail252 (rollingMean 20 (adjClose_column rows))).map Prod.snd,
             "lines", "20-day SMA", "#20fc03"⟩,
            ⟨(tail252 (rollingMean 200 (adjClose_column rows))).map Prod.fst,
             (tail252 (rollingMean 200 (adjClose_column rows))).map Prod.snd,
             "lines", "200-day SMA", "#fc0303"⟩],
           rangeSelectorButtons, "Date", "Price", sym, 600, false⟩,
    ?_, rfl, rfl, ?_, ?_, ?_⟩
  · simp [main, hrange, hfetch, calculate_sma, create_stock_graph, htail]
  · intro t ht
    simp only [List.mem_cons, List.not_mem_nil, or_false] at ht
    rcases ht with ht | ht | ht <;> subst ht <;>
      simp [tail252_length, rollingMean_length, hlen]
  · intro hge t ht
    simp only [List.mem_cons, List.not_mem_nil, or_false] at ht
    rcases ht with ht | ht | ht <;> subst ht <;>
      simp [tail252_length, rollingMean_length, hlen] <;> omega
  · intro hle
    have h1 : tail252 (adjClose_column rows) = adjClose_column rows :=
      tail252_of_short _ (by omega)
    have h2 : tail252 (rollingMean 20 (adjClose_column rows)) =
        rollingMean 20 (adjClose_column rows) :=
      tail252_of_short _ (by rw [rollingMean_length]; omega)
    have h3 : tail252 (rollingMean 200 (adjClose_column rows)) =
        rollingMean 200 (adjClose_column rows) :=
      tail252_of_short _ (by rw [rollingMean_length]; omega)
    simp only [h1, h2, h3, List.map_cons, List.map_nil]

/-- Witness for C6: a concrete 3-point fetch is rendered whole (3 < 252). -/
theorem truncate_to_last_252_before_chart_witness :
    ∃ fig : Figure,
      (main (fun _ _ _ => FetchResult.ok
          [(0, ⟨10, 10, 10, 10, 10, 1⟩), (1, ⟨11, 11, 11, 11, 11, 1⟩),
           (2, ⟨12, 12, 12, 12, 12, 1⟩)])
        [] "AAPL" ⟨2021, 1, 1⟩ ⟨2024, 1, 1⟩).1 =
        [Effect.text "Last Update Date",
         Effect.fetchCall "AAPL" ⟨2021, 1, 1⟩ ⟨2024, 1, 1⟩,
         Effect.chart fig] := by
  obtain ⟨fig, h, -⟩ := truncate_to_last_252_before_chart
    (fun _ _ _ => FetchResult.ok
      [(0, ⟨10, 10, 10, 10, 10, 1⟩), (1, ⟨11, 11, 11, 11, 11, 1⟩),
       (2, ⟨12, 12, 12, 12, 12, 1⟩)])
    [] "AAPL" ⟨2021, 1, 1⟩ ⟨2024, 1, 1⟩
    [(0, ⟨10, 10, 10, 10, 10, 1⟩), (1, ⟨11, 11, 11, 11, 11, 1⟩),
     (2, ⟨12, 12, 12, 12, 12, 1⟩)]
    (by decide) rfl rfl (by decide)
  exact ⟨fig, h⟩

end Stockchk
